import Mathlib

set_option maxRecDepth 8000
set_option maxHeartbeats 1000000

/-!
Shallow embedding of the decision core of `src/app/app.py`
(ServiceNow cause automation).

Strings are modelled as `List Char` (`Chars`).  Ticket fields coming from
the pandas dataframe may be missing (NaN); such a field is modelled as
`Option Chars`, where `none` stands for NaN.  Python coercions used by the
code are modelled explicitly:

* `str(x)` on a possibly-NaN field: `pyStr` (NaN prints as the literal
  string "nan");
* `.lower()`: `pyLower` (ASCII, matching the data involved);
* `.strip()`: `pyStrip` (drops leading and trailing whitespace);
* `needle in haystack` on strings: `strIn` (substring containment,
  the empty needle is contained in everything);
* `s.split(" - ")`: `sepSplit` (leftmost, non-overlapping);
* `s[:50]`: `List.take 50`;
* a raised exception (IndexError on `canonical_categories[0]` with an
  empty list) is modelled by `Option`, `none` being the raised error.
-/

abbrev Chars := List Char

/-- Convert a Lean string literal to the `List Char` representation. -/
def chars (s : String) : Chars := s.data

/-- Python `str(x)` applied to a dataframe field: NaN prints as "nan". -/
def pyStr : Option Chars → Chars
  | none => chars "nan"
  | some s => s

/-- Python `.lower()` (ASCII case folding). -/
def pyLower (l : Chars) : Chars := l.map Char.toLower

/-- Python `.strip()`: drop leading and trailing whitespace. -/
def pyStrip (l : Chars) : Chars :=
  ((l.dropWhile Char.isWhitespace).reverse.dropWhile Char.isWhitespace).reverse

/-- Python substring containment `need in hay`. -/
def strIn (need : Chars) : Chars → Bool
  | [] => need.isEmpty
  | c :: t => need.isPrefixOf (c :: t) || strIn need t

/-- Python `s.split(" - ")`: split on the three-character separator,
leftmost occurrence first, non-overlapping.  A list shorter than three
characters cannot contain the separator and is returned whole. -/
def sepSplit : Chars → List Chars
  | c1 :: c2 :: c3 :: rest =>
      if c1 = ' ' ∧ c2 = '-' ∧ c3 = ' ' then
        [] :: sepSplit rest
      else
        match sepSplit (c2 :: c3 :: rest) with
        | [] => [[c1]]
        | p :: ps => (c1 :: p) :: ps
  | [] => [[]]
  | [c1] => [[c1]]
  | [c1, c2] => [[c1, c2]]

/-- `is_valid_cause` (app.py lines 7-23).  `cause_text` may be NaN
(`none`).  The code strips the whole text, splits on " - ", strips each
part, and checks part count and the three membership conditions. -/
def is_valid_cause (cause_text : Option Chars)
    (service_offerings canonical_categories : List Chars) : Bool :=
  match cause_text with
  | none => false
  | some s =>
    if (pyStrip s).isEmpty then false
    else
      match (sepSplit s).map pyStrip with
      | [service, category, rca] =>
          decide (service ∈ service_offerings) &&
          decide (category ∈ canonical_categories) &&
          !rca.isEmpty
      | _ => false

/-- `ai_fallback_suggest` (app.py lines 29-36).  `canonical_categories[0]`
on an empty list raises IndexError, modelled as `none`. -/
def ai_fallback_suggest (text_blob : Chars) (canonical_categories : List Chars) :
    Option (Chars × Chars) :=
  if strIn (chars "resolved") text_blob || strIn (chars "fixed") text_blob then
    some (chars "Configuration issue", chars "Resolved after configuration check")
  else if strIn (chars "working") text_blob || strIn (chars "no issue") text_blob then
    some (chars "Configuration issue", chars "No fault found")
  else
    match canonical_categories with
    | [] => none
    | c :: _ => some (c, chars "Root cause under investigation")

/-- A ticket row as consumed by `process_ticket`: the five fields it
reads.  `none` models a missing (NaN) field. -/
structure Ticket where
  service_offering : Option Chars
  existing_cause : Option Chars
  short_description : Option Chars
  description : Option Chars
  work_notes : Option Chars
deriving DecidableEq

/-- The text blob (app.py lines 51-55): lower-cased concatenation of the
str-coerced free-text fields joined by single spaces. -/
def mkBlob (t : Ticket) : Chars :=
  pyLower (pyStr t.short_description ++ chars " " ++
           pyStr t.description ++ chars " " ++
           pyStr t.work_notes)

/-- Rule-based category (app.py lines 57-67): ordered keyword rules,
first match wins. -/
def categorize (text_blob : Chars) : Chars :=
  if strIn (chars "login") text_blob || strIn (chars "access") text_blob ||
      strIn (chars "unauthorized") text_blob then chars "Access issue"
  else if strIn (chars "offline") text_blob || strIn (chars "down") text_blob ||
      strIn (chars "not reachable") text_blob then chars "Offline issue"
  else if strIn (chars "timeout") text_blob || strIn (chars "network") text_blob ||
      strIn (chars "connectivity") text_blob then chars "Connectivity issue"
  else if strIn (chars "screen") text_blob || strIn (chars "display") text_blob ||
      strIn (chars "black") text_blob then chars "Display issue"
  else chars "Configuration issue"

/-- The for-break loop over `rca_list` (app.py lines 74-79): first
catalog phrase whose lower-cased form is contained in the blob. -/
def findMatch (rca_list : List Chars) (text_blob : Chars) : Option Chars :=
  match rca_list with
  | [] => none
  | rca :: rest =>
      if strIn (pyLower rca) text_blob then some rca else findMatch rest text_blob

/-- Root-cause resolution (app.py lines 69-88): catalog match, else new
RCA from work notes.  Returns (matched_rca, confidence, reason).  The
initial state (\x22Under analysis\x22, 50, \x22Rule-based default\x22) is kept to
mirror the code: a matched phrase that literally equals "Under analysis"
re-triggers the work-notes branch, exactly as in the source. -/
def resolveRca (text_blob : Chars) (rca_list : List Chars)
    (work_notes : Option Chars) : Chars × Nat × Chars :=
  let state0 : Chars × Nat × Chars :=
    (chars "Under analysis", 50, chars "Rule-based default")
  let state1 :=
    match findMatch rca_list text_blob with
    | some rca => (rca, 90, chars "Matched existing RCA: " ++ rca)
    | none => state0
  if state1.1 = chars "Under analysis" then
    let new_rca := pyStrip (pyStr work_notes)
    let new_rca :=
      if new_rca.isEmpty || pyLower new_rca = chars "nan" then
        chars "Root cause under investigation"
      else new_rca
    (new_rca.take 50, 60, chars "New RCA created from work notes")
  else state1

/-- The f-string composition (app.py line 98):
`f"{service_offering} - {category} - {matched_rca}"`; the f-string
str-coerces a NaN field. -/
def composeCause (service_offering : Option Chars) (category rca : Chars) : Chars :=
  pyStr service_offering ++ chars " - " ++ category ++ chars " - " ++ rca

/-- `process_ticket` (app.py lines 42-100).  Result is
(cause, confidence, reason); the outer `Option` models the uncaught
IndexError raised when the fallback is reached with an empty category
list. -/
def process_ticket (t : Ticket) (rca_list service_offerings canonical_categories : List Chars) :
    Option (Option Chars × Option Nat × Chars) :=
  if is_valid_cause t.existing_cause service_offerings canonical_categories then
    some (none, none, chars "Skipped (already valid)")
  else
    let text_blob := mkBlob t
    let category := categorize text_blob
    let r := resolveRca text_blob rca_list t.work_notes
    if r.2.1 < 75 then
      match ai_fallback_suggest text_blob canonical_categories with
      | none => none
      | some (ai_category, ai_rca) =>
          some (some (composeCause t.service_offering ai_category ai_rca),
                some 70, chars "AI fallback used")
    else
      some (some (composeCause t.service_offering category r.1),
            some r.2.1, r.2.2)

/-- The per-ticket write-back of bulk mode (app.py lines 179-186):
`if cause:` writes the cause onto `existing_cause`; a falsy cause
(`None` or the empty string) leaves the ticket unchanged, as does an
aborted run. -/
def applyOutcome (t : Ticket) (res : Option (Option Chars × Option Nat × Chars)) : Ticket :=
  match res with
  | some (some c, _, _) =>
      if c.isEmpty then t
      else Ticket.mk t.service_offering (some c) t.short_description
        t.description t.work_notes
  | _ => t

example : sepSplit (chars "a - b - c") = [chars "a", chars "b", chars "c"] := by decide
example : sepSplit (chars " -  - x") = [[], [], chars "x"] := by decide
example : sepSplit (chars "") = [[]] := by decide
example : strIn (chars "") (chars "xyz") = true := by decide
example : pyStrip (chars "  ab c  ") = chars "ab c" := by decide
example : is_valid_cause (some (chars "A - B - C")) [chars "A"] [chars "B"] = true := by decide
example : is_valid_cause (some (chars " Laptop - Cat - X")) [chars "Laptop"] [chars "Cat"] = true := by decide

/-! ### Helper lemmas about the embedded string operations -/

/-- Unfolding lemma for `sepSplit` on a list of length at least three. -/
theorem sepSplit_cons3 (c1 c2 c3 : Char) (rest : Chars) :
    sepSplit (c1 :: c2 :: c3 :: rest) =
      if c1 = ' ' ∧ c2 = '-' ∧ c3 = ' ' then [] :: sepSplit rest
      else
        match sepSplit (c2 :: c3 :: rest) with
        | [] => [[c1]]
        | p :: ps => (c1 :: p) :: ps := rfl

/-- `sepSplit` never returns the empty list of parts. -/
theorem sepSplit_ne_nil (l : Chars) : sepSplit l ≠ [] := by
  match l with
  | [] => simp [sepSplit]
  | [c1] => simp [sepSplit]
  | [c1, c2] => simp [sepSplit]
  | c1 :: c2 :: c3 :: rest =>
    rw [sepSplit_cons3]
    split_ifs
    · simp
    · rcases h : sepSplit (c2 :: c3 :: rest) with - | ⟨p, ps⟩ <;> simp

/-- Separator-at-junction lemma: if the text `x` followed by a space and
a dash contains no occurrence of the separator " - " (expressed as:
splitting it returns it whole), then splitting `x ++ " - " ++ y` cuts
exactly after `x`. -/
theorem sepSplit_junction : ∀ (x y : Chars),
    sepSplit (x ++ [' ', '-']) = [x ++ [' ', '-']] →
    sepSplit (x ++ ' ' :: '-' :: ' ' :: y) = x :: sepSplit y
  | [], y, _ => by
      rw [List.nil_append, sepSplit_cons3, if_pos ⟨rfl, rfl, rfl⟩]
  | [c], y, _ => by
      rw [List.cons_append, List.nil_append, sepSplit_cons3, if_neg]
      · rw [sepSplit_cons3, if_pos ⟨rfl, rfl, rfl⟩]
      · rintro ⟨-, h2, -⟩; exact absurd h2 (by decide)
  | [c1, c2], y, h => by
      by_cases hcc : c1 = ' ' ∧ c2 = '-'
      · obtain ⟨rfl, rfl⟩ := hcc
        simp only [List.cons_append, List.nil_append] at h
        exact absurd h (by decide)
      · have hyp : sepSplit ([c2] ++ [' ', '-']) = [[c2] ++ [' ', '-']] := by
          simp only [List.cons_append, List.nil_append] at h ⊢
          rw [sepSplit_cons3] at h
          rw [if_neg (by rintro ⟨ha, hb, -⟩; exact hcc ⟨ha, hb⟩)] at h
          rcases hs : sepSplit [c2, ' ', '-'] with - | ⟨p, ps⟩
          · exact absurd hs (sepSplit_ne_nil _)
          · rw [hs] at h
            simp only [] at h
            injection h with h1 h2
            injection h1 with h3 h4
            subst h4; subst h2
            rfl
        have ih := sepSplit_junction [c2] y hyp
        simp only [List.cons_append, List.nil_append] at ih ⊢
        rw [sepSplit_cons3]
        rw [if_neg (by rintro ⟨ha, hb, -⟩; exact hcc ⟨ha, hb⟩)]
        rw [ih]
  | c1 :: c2 :: c3 :: x', y, h => by
      by_cases hc : c1 = ' ' ∧ c2 = '-' ∧ c3 = ' '
      · obtain ⟨rfl, rfl, rfl⟩ := hc
        simp only [List.cons_append] at h
        rw [sepSplit_cons3, if_pos ⟨rfl, rfl, rfl⟩] at h
        simp only [List.cons.injEq] at h
        exact absurd h.1 (by simp)
      · have hyp : sepSplit ((c2 :: c3 :: x') ++ [' ', '-']) =
            [(c2 :: c3 :: x') ++ [' ', '-']] := by
          simp only [List.cons_append] at h ⊢
          rw [sepSplit_cons3, if_neg hc] at h
          rcases hs : sepSplit (c2 :: c3 :: (x' ++ [' ', '-'])) with - | ⟨p, ps⟩
          · exact absurd hs (sepSplit_ne_nil _)
          · rw [hs] at h
            simp only [] at h
            injection h with h1 h2
            injection h1 with h3 h4
            subst h4; subst h2
            rfl
        have ih := sepSplit_junction (c2 :: c3 :: x') y hyp
        simp only [List.cons_append] at ih ⊢
        rw [sepSplit_cons3, if_neg hc, ih]

/-- A character that fails the predicate survives `dropWhile`. -/
theorem mem_dropWhile_of_not (p : Char → Bool) (c : Char) (hc : p c = false) :
    ∀ l : Chars, c ∈ l → c ∈ l.dropWhile p
  | a :: t, h => by
      by_cases hp : p a
      · rw [List.dropWhile_cons, if_pos hp]
        rcases List.mem_cons.mp h with rfl | ht
        · rw [hc] at hp; exact absurd hp (by simp)
        · exact mem_dropWhile_of_not p c hc t ht
      · rw [List.dropWhile_cons, if_neg hp]
        exact h

/-- A non-whitespace character of `l` survives `pyStrip`. -/
theorem mem_pyStrip (c : Char) (hc : c.isWhitespace = false) (l : Chars)
    (h : c ∈ l) : c ∈ pyStrip l := by
  unfold pyStrip
  rw [List.mem_reverse]
  exact mem_dropWhile_of_not _ c hc _
    (List.mem_reverse.mpr (mem_dropWhile_of_not _ c hc _ h))

/-- A list containing a non-whitespace character strips to a non-empty
list. -/
theorem pyStrip_ne_nil_of_mem (c : Char) (hc : c.isWhitespace = false)
    (l : Chars) (h : c ∈ l) : pyStrip l ≠ [] :=
  List.ne_nil_of_mem (mem_pyStrip c hc l h)

/-- The catalog loop finds nothing when no phrase matches. -/
theorem findMatch_eq_none : ∀ (rl : List Chars) (blob : Chars),
    (∀ p ∈ rl, strIn (pyLower p) blob = false) → findMatch rl blob = none
  | [], _, _ => rfl
  | rca :: rest, blob, h => by
      rw [findMatch]
      rw [if_neg (by rw [h rca (by simp)]; simp)]
      exact findMatch_eq_none rest blob (fun p hp => h p (by simp [hp]))

/-- A phrase found by the catalog loop is a catalog entry. -/
theorem findMatch_mem : ∀ {rl : List Chars} {blob r : Chars},
      findMatch rl blob = some r → r ∈ rl
  | rca :: rest, blob, r, h => by
      rw [findMatch] at h
      split_ifs at h
      · simp at h; simp [h]
      · exact List.mem_cons.mpr (Or.inr (findMatch_mem h))

/-- Shape of the resolver result: either the work-notes branch fired
(confidence 60) or a catalog phrase other than "Under analysis" matched
(confidence 90). -/
theorem resolveRca_shape (blob : Chars) (rl : List Chars) (notes : Option Chars) :
    ((resolveRca blob rl notes).2.1 = 60 ∧
      (resolveRca blob rl notes).2.2 = chars "New RCA created from work notes") ∨
    ((resolveRca blob rl notes).2.1 = 90 ∧
      ∃ q, (resolveRca blob rl notes).2.2 = chars "Matched existing RCA: " ++ q ∧
        (resolveRca blob rl notes).1 = q ∧ q ∈ rl) := by
  unfold resolveRca
  rcases hm : findMatch rl blob with - | r
  · left; simp
  · by_cases hr : r = chars "Under analysis"
    · subst hr; left; simp
    · right
      refine ⟨by simp [hr], r, by simp [hr], by simp [hr], findMatch_mem hm⟩

/-! ### Auxiliary facts used by the claim theorems -/

/-- Two lists with distinct head characters are different, whatever is
appended to the first. -/
theorem cons_append_ne {a b : Char} {l m : Chars} (q : Chars) (hab : a ≠ b) :
    (a :: l) ++ q ≠ b :: m := by
  intro h
  rw [List.cons_append] at h
  injection h with h1 h2
  exact hab h1

/-- A catalog-match reason never collides with the two intermediate
reasons. -/
theorem matched_reason_ne (q : Chars) :
    chars "Matched existing RCA: " ++ q ≠ chars "Rule-based default" ∧
    chars "Matched existing RCA: " ++ q ≠ chars "New RCA created from work notes" := by
  constructor
  · intro h
    rw [show chars "Matched existing RCA: " = 'M' :: chars "atched existing RCA: " from rfl,
      List.cons_append] at h
    injection h with h1 h2
    exact absurd h1 (by decide)
  · intro h
    rw [show chars "Matched existing RCA: " = 'M' :: chars "atched existing RCA: " from rfl,
      List.cons_append] at h
    injection h with h1 h2
    exact absurd h1 (by decide)

/-! ### Claim C2 -/

/-- C2: fallback override.  For every ticket that is not skipped, when
the root-cause resolution step ends with confidence below 75 and the
fallback returns the pair (ac, ar), the final result of `process_ticket`
has confidence exactly 70, reason exactly "AI fallback used", and the
composed cause carries the fallback category and phrase, discarding the
rule-based category and the resolver phrase. -/
theorem C2_fallback_override (t : Ticket) (rl offs cats : List Chars) (ac ar : Chars)
    (hskip : is_valid_cause t.existing_cause offs cats = false)
    (hconf : (resolveRca (mkBlob t) rl t.work_notes).2.1 < 75)
    (hai : ai_fallback_suggest (mkBlob t) cats = some (ac, ar)) :
    process_ticket t rl offs cats =
      some (some (composeCause t.service_offering ac ar), some 70,
        chars "AI fallback used") := by
  unfold process_ticket
  rw [if_neg (by simp [hskip])]
  simp only []
  rw [if_pos hconf, hai]

/-- Witness for C2 at a concrete ticket. -/
theorem C2_fallback_override_witness :
    process_ticket (Ticket.mk (some (chars "S")) none (some []) (some []) (some []))
        [] [] [chars "C"] =
      some (some (composeCause
          (Ticket.mk (some (chars "S")) none (some []) (some []) (some [])).service_offering
          (chars "C") (chars "Root cause under investigation")),
        some 70, chars "AI fallback used") :=
  C2_fallback_override (Ticket.mk (some (chars "S")) none (some []) (some []) (some []))
    [] [] [chars "C"] (chars "C") (chars "Root cause under investigation")
    (by decide) (by decide) (by decide)

/-! ### Claim C7 -/

/-- C7: empty-categories configuration error.  When the default branch
of the fallback is reached (the blob contains none of the four keywords)
with an empty canonical-categories list, the fallback fails (the raised
IndexError, modelled as `none`) and `process_ticket` surfaces the
failure to its caller; with a non-empty list the failure branch is
unreachable. -/
theorem C7_empty_categories_error :
    (∀ blob : Chars,
        strIn (chars "resolved") blob = false →
        strIn (chars "fixed") blob = false →
        strIn (chars "working") blob = false →
        strIn (chars "no issue") blob = false →
        ai_fallback_suggest blob [] = none ∧
        ∀ cats : List Chars, cats ≠ [] →
          (ai_fallback_suggest blob cats).isSome = true) ∧
    (∀ (t : Ticket) (rl offs : List Chars),
        is_valid_cause t.existing_cause offs [] = false →
        (resolveRca (mkBlob t) rl t.work_notes).2.1 < 75 →
        strIn (chars "resolved") (mkBlob t) = false →
        strIn (chars "fixed") (mkBlob t) = false →
        strIn (chars "working") (mkBlob t) = false →
        strIn (chars "no issue") (mkBlob t) = false →
        process_ticket t rl offs [] = none) := by
  constructor
  · intro blob h1 h2 h3 h4
    constructor
    · unfold ai_fallback_suggest
      rw [if_neg (by simp [h1, h2]), if_neg (by simp [h3, h4])]
    · intro cats hcats
      unfold ai_fallback_suggest
      rcases cats with - | ⟨c, cs⟩
      · exact absurd rfl hcats
      · split_ifs <;> simp
  · intro t rl offs hskip hconf h1 h2 h3 h4
    unfold process_ticket
    rw [if_neg (by simp [hskip])]
    simp only []
    rw [if_pos hconf]
    have hai : ai_fallback_suggest (mkBlob t) [] = none := by
      unfold ai_fallback_suggest
      rw [if_neg (by simp [h1, h2]), if_neg (by simp [h3, h4])]
    rw [hai]

/-- Witness for C7 at a concrete blob, category list and ticket. -/
theorem C7_empty_categories_error_witness :
    ai_fallback_suggest (chars "zz") [] = none ∧
    (ai_fallback_suggest (chars "zz") [chars "A"]).isSome = true ∧
    process_ticket (Ticket.mk (some (chars "S")) none (some (chars "q"))
        (some (chars "q")) (some (chars "q"))) [] [] [] = none :=
  ⟨(C7_empty_categories_error.1 (chars "zz") (by decide) (by decide) (by decide)
      (by decide)).1,
   (C7_empty_categories_error.1 (chars "zz") (by decide) (by decide) (by decide)
      (by decide)).2 [chars "A"] (by simp),
   C7_empty_categories_error.2
     (Ticket.mk (some (chars "S")) none (some (chars "q")) (some (chars "q"))
       (some (chars "q"))) [] []
     (by decide) (by decide) (by decide) (by decide) (by decide) (by decide)⟩

/-! ### Claim C10 -/

/-- C10: final confidence is always 70 or 90.  Every Processed outcome
of `process_ticket` carries confidence 70 or 90, and its reason is never
one of the two intermediate reasons "Rule-based default" or "New RCA
created from work notes". -/
theorem C10_final_confidence (t : Ticket) (rl offs cats : List Chars)
    (c : Chars) (k : Option Nat) (reason : Chars)
    (h : process_ticket t rl offs cats = some (some c, k, reason)) :
    (k = some 70 ∨ k = some 90) ∧
    reason ≠ chars "Rule-based default" ∧
    reason ≠ chars "New RCA created from work notes" := by
  unfold process_ticket at h
  simp only [] at h
  split_ifs at h with hv hconf
  · simp at h
  · rcases hai : ai_fallback_suggest (mkBlob t) cats with - | ⟨ac, ar⟩
    · rw [hai] at h; simp at h
    · rw [hai] at h
      simp only [Option.some.injEq, Prod.mk.injEq] at h
      refine ⟨Or.inl h.2.1.symm, ?_, ?_⟩ <;> rw [← h.2.2] <;> decide
  · rcases resolveRca_shape (mkBlob t) rl t.work_notes with ⟨h60, -⟩ | ⟨h90, q, hq, -, -⟩
    · exfalso; rw [h60] at hconf; exact hconf (by norm_num)
    · simp only [Option.some.injEq, Prod.mk.injEq] at h
      obtain ⟨-, hk, hreason⟩ := h
      rw [h90] at hk
      rw [hq] at hreason
      refine ⟨Or.inr hk.symm, ?_, ?_⟩ <;> rw [← hreason]
      · exact (matched_reason_ne q).1
      · exact (matched_reason_ne q).2

/-- Witness for C10 at a concrete Processed outcome. -/
theorem C10_final_confidence_witness :
    (some 70 = some 70 ∨ some 70 = some (90 : Nat)) ∧
    chars "AI fallback used" ≠ chars "Rule-based default" ∧
    chars "AI fallback used" ≠ chars "New RCA created from work notes" :=
  C10_final_confidence
    (Ticket.mk (some (chars "S")) none (some []) (some []) (some []))
    [] [] [chars "C"]
    (composeCause (some (chars "S")) (chars "C") (chars "Root cause under investigation"))
    (some 70) (chars "AI fallback used") (by decide)

/-- A Boolean-empty list is nil. -/
theorem isEmpty_eq_nil {l : Chars} (h : l.isEmpty = true) : l = [] := by
  cases l
  · rfl
  · simp [List.isEmpty] at h

/-- Taking a positive prefix of a non-empty list is non-empty. -/
theorem take_ne_nil (n : Nat) (hn : n ≠ 0) {l : Chars} (h : l ≠ []) :
    l.take n ≠ [] := by
  intro hc
  have hl := congrArg List.length hc
  rw [List.length_take] at hl
  simp only [List.length_nil] at hl
  rcases Nat.min_eq_zero_iff.mp hl with h1 | h2
  · exact hn h1
  · exact h (List.length_eq_zero.mp h2)

/-- The empty-cause literal is never a valid cause. -/
theorem is_valid_cause_empty (offs cats : List Chars) :
    is_valid_cause (some []) offs cats = false := rfl

/-! ### Claim C8 -/

/-- C8: end-to-end example.  The spec example ticket (service offering
"Laptop", description "Unable to login, access denied", work notes
"issue resolved after password reset", empty existing cause and short
description), with a catalog in which no phrase matches the blob, is
processed to the cause "Laptop - Configuration issue - Resolved after
configuration check" with confidence 70 and reason "AI fallback used". -/
theorem C8_end_to_end (rl offs cats : List Chars)
    (hnm : ∀ p ∈ rl, strIn (pyLower p)
        (mkBlob (Ticket.mk (some (chars "Laptop")) (some []) (some [])
          (some (chars "Unable to login, access denied"))
          (some (chars "issue resolved after password reset")))) = false) :
    process_ticket (Ticket.mk (some (chars "Laptop")) (some []) (some [])
        (some (chars "Unable to login, access denied"))
        (some (chars "issue resolved after password reset"))) rl offs cats =
      some (some (chars "Laptop - Configuration issue - Resolved after configuration check"),
        some 70, chars "AI fallback used") := by
  have hfm := findMatch_eq_none rl _ hnm
  unfold process_ticket
  rw [if_neg (by rw [is_valid_cause_empty]; simp)]
  simp only []
  have hres : resolveRca
      (mkBlob (Ticket.mk (some (chars "Laptop")) (some []) (some [])
        (some (chars "Unable to login, access denied"))
        (some (chars "issue resolved after password reset")))) rl
      (some (chars "issue resolved after password reset")) =
      (chars "issue resolved after password reset", 60,
        chars "New RCA created from work notes") := by
    unfold resolveRca
    rw [hfm]
    decide
  rw [hres]
  rw [if_pos (by norm_num)]
  have hai : ai_fallback_suggest
      (mkBlob (Ticket.mk (some (chars "Laptop")) (some []) (some [])
        (some (chars "Unable to login, access denied"))
        (some (chars "issue resolved after password reset")))) cats =
      some (chars "Configuration issue", chars "Resolved after configuration check") := by
    unfold ai_fallback_suggest
    rw [if_pos (by decide)]
  rw [hai]
  rfl

/-- Witness for C8 with the empty catalog. -/
theorem C8_end_to_end_witness :
    process_ticket (Ticket.mk (some (chars "Laptop")) (some []) (some [])
        (some (chars "Unable to login, access denied"))
        (some (chars "issue resolved after password reset"))) [] [] [] =
      some (some (chars "Laptop - Configuration issue - Resolved after configuration check"),
        some 70, chars "AI fallback used") :=
  C8_end_to_end [] [] [] (by simp)

/-! ### Claim C6 -/

/-- C6 (amended): skip outcome and frame.  A ticket whose existing cause
is valid is returned as (no cause, no confidence, reason "Skipped
(already valid)") — the code reason string, not the spec literal
"already valid" — and the write-back step leaves the ticket unchanged. -/
theorem C6_skip_outcome (t : Ticket) (rl offs cats : List Chars)
    (h : is_valid_cause t.existing_cause offs cats = true) :
    process_ticket t rl offs cats =
      some (none, none, chars "Skipped (already valid)") ∧
    applyOutcome t (process_ticket t rl offs cats) = t := by
  have hp : process_ticket t rl offs cats =
      some (none, none, chars "Skipped (already valid)") := by
    unfold process_ticket
    rw [if_pos h]
  exact ⟨hp, by rw [hp]; rfl⟩

/-- Counterexample to C6 as stated: the skip reason produced by the code
is "Skipped (already valid)", not "already valid". -/
theorem C6_skip_outcome_cex :
    process_ticket (Ticket.mk (some (chars "A")) (some (chars "A - B - C"))
        none none none) [] [chars "A"] [chars "B"] =
      some (none, none, chars "Skipped (already valid)") ∧
    chars "Skipped (already valid)" ≠ chars "already valid" :=
  ⟨by decide, by decide⟩

/-- Witness for C6 at a concrete valid ticket. -/
theorem C6_skip_outcome_witness :
    process_ticket (Ticket.mk (some (chars "A")) (some (chars "A - B - C"))
        none none none) [] [chars "A"] [chars "B"] =
      some (none, none, chars "Skipped (already valid)") ∧
    applyOutcome (Ticket.mk (some (chars "A")) (some (chars "A - B - C"))
        none none none)
      (process_ticket (Ticket.mk (some (chars "A")) (some (chars "A - B - C"))
        none none none) [] [chars "A"] [chars "B"]) =
      Ticket.mk (some (chars "A")) (some (chars "A - B - C")) none none none :=
  C6_skip_outcome (Ticket.mk (some (chars "A")) (some (chars "A - B - C"))
    none none none) [] [chars "A"] [chars "B"] (by decide)

/-- The work-notes phrase (truncated to 50 characters) is never empty:
either the fallback literal or a non-empty trimmed notes string. -/
theorem workNotesPhrase_ne_nil (notes : Option Chars) :
    ((if (pyStrip (pyStr notes)).isEmpty || pyLower (pyStrip (pyStr notes)) = chars "nan"
      then chars "Root cause under investigation"
      else pyStrip (pyStr notes)).take 50 : Chars) ≠ [] := by
  split_ifs with h2
  · exact take_ne_nil 50 (by norm_num) (by decide)
  · refine take_ne_nil 50 (by norm_num) ?_
    intro hnil
    apply h2
    rw [hnil]
    simp

/-- Resolver characterization when no catalog phrase matches, or the
matched phrase is the "Under analysis" placeholder: the work-notes
branch runs. -/
theorem resolveRca_wn (blob : Chars) (rl : List Chars) (notes : Option Chars)
    (h : findMatch rl blob = none ∨ findMatch rl blob = some (chars "Under analysis")) :
    resolveRca blob rl notes =
      ((if (pyStrip (pyStr notes)).isEmpty || pyLower (pyStrip (pyStr notes)) = chars "nan"
        then chars "Root cause under investigation"
        else pyStrip (pyStr notes)).take 50, 60,
        chars "New RCA created from work notes") := by
  unfold resolveRca
  rcases h with h | h <;> rw [h] <;> rfl

/-- Resolver characterization for a catalog match other than the
placeholder: the match is returned with confidence 90. -/
theorem resolveRca_some (blob : Chars) (rl : List Chars) (notes : Option Chars)
    (r : Chars) (hfm : findMatch rl blob = some r)
    (hr : r ≠ chars "Under analysis") :
    resolveRca blob rl notes = (r, 90, chars "Matched existing RCA: " ++ r) := by
  unfold resolveRca
  rw [hfm]
  simp only []
  rw [if_neg hr]

/-! ### Claim C5 -/

/-- C5 (amended): resolver totality and non-empty result, provided every
catalog entry is a non-empty string.  The resolution step is a total
function, and its phrase is non-empty: a non-empty catalog match is
returned as is, and otherwise the work-notes branch yields either the
trimmed notes (non-empty) or the fallback literal. -/
theorem C5_resolver_nonempty (blob : Chars) (rl : List Chars) (notes : Option Chars)
    (h : ∀ p ∈ rl, p ≠ []) :
    (resolveRca blob rl notes).1 ≠ [] := by
  rcases hm : findMatch rl blob with - | r
  · rw [resolveRca_wn blob rl notes (Or.inl hm)]
    exact workNotesPhrase_ne_nil notes
  · by_cases hr : r = chars "Under analysis"
    · subst hr
      rw [resolveRca_wn blob rl notes (Or.inr hm)]
      exact workNotesPhrase_ne_nil notes
    · rw [resolveRca_some blob rl notes r hm hr]
      exact h r (findMatch_mem hm)

/-- Counterexample to C5 as stated: a degenerate (empty) catalog entry
matches every blob and is returned as an empty phrase with
confidence 90. -/
theorem C5_resolver_nonempty_cex :
    resolveRca (chars "x") [[]] none =
      ([], 90, chars "Matched existing RCA: ") := by decide

/-- Witness for C5 with a non-degenerate catalog. -/
theorem C5_resolver_nonempty_witness :
    (resolveRca (chars "x") [chars "p"] none).1 ≠ [] :=
  C5_resolver_nonempty (chars "x") [chars "p"] none (by decide)

/-! ### Claim C9 -/

/-- C9 (amended): work-notes truncation.  For an 80-character work-notes
string whose trimmed form keeps at least 50 characters, when no catalog
phrase matches the blob, the resolver phrase is exactly the first 50
characters of the trimmed work notes, and it has length exactly 50. -/
theorem C9_truncation (notes blob : Chars) (rl : List Chars)
    (_h80 : notes.length = 80)
    (htrim : 50 ≤ (pyStrip notes).length)
    (hnm : ∀ p ∈ rl, strIn (pyLower p) blob = false) :
    (resolveRca blob rl (some notes)).1 = (pyStrip notes).take 50 ∧
    ((resolveRca blob rl (some notes)).1).length = 50 := by
  have hfm := findMatch_eq_none rl blob hnm
  rw [resolveRca_wn blob rl (some notes) (Or.inl hfm)]
  split_ifs with h2
  · exfalso
    have h2' : (pyStrip (pyStr (some notes))).isEmpty = true ∨
        pyLower (pyStrip (pyStr (some notes))) = chars "nan" := by simpa using h2
    rcases h2' with ha | hb
    · have hnl : pyStrip notes = [] := isEmpty_eq_nil ha
      rw [hnl] at htrim
      simp at htrim
    · have hlen := congrArg List.length hb
      simp only [pyLower, List.length_map] at hlen
      rw [show pyStr (some notes) = notes from rfl] at hlen
      rw [hlen] at htrim
      rw [show (chars "nan").length = 3 from rfl] at htrim
      omega
  · constructor
    · rfl
    · show ((pyStrip (pyStr (some notes))).take 50).length = 50
      rw [show pyStr (some notes) = notes from rfl, List.length_take]
      omega

/-- Counterexample to C9 as stated: an 80-character work-notes string
made of 77 spaces and "abc" trims to 3 characters, so the resolver
phrase has length 3, not 50. -/
theorem C9_truncation_cex :
    (List.replicate 77 ' ' ++ chars "abc").length = 80 ∧
    ((resolveRca [] [] (some (List.replicate 77 ' ' ++ chars "abc"))).1).length = 3 ∧
    ((resolveRca [] [] (some (List.replicate 77 ' ' ++ chars "abc"))).1).length ≠ 50 :=
  ⟨by decide, by decide, by decide⟩

/-- Witness for C9 on an 80-character string that trims to itself. -/
theorem C9_truncation_witness :
    (resolveRca [] [] (some (List.replicate 80 'a'))).1 =
      (pyStrip (List.replicate 80 'a')).take 50 ∧
    ((resolveRca [] [] (some (List.replicate 80 'a'))).1).length = 50 :=
  C9_truncation (List.replicate 80 'a') [] [] (by decide) (by decide) (by simp)

/-- A text that splits into two or more parts contains a dash. -/
theorem dash_mem_of_sepSplit : ∀ {l : Chars} {p q : Chars} {ps : List Chars},
    sepSplit l = p :: q :: ps → '-' ∈ l
  | [], p, q, ps, h => by simp [sepSplit] at h
  | [c], p, q, ps, h => by simp [sepSplit] at h
  | [c, d], p, q, ps, h => by simp [sepSplit] at h
  | c1 :: c2 :: c3 :: rest, p, q, ps, h => by
      rw [sepSplit_cons3] at h
      split_ifs at h with hc
      · obtain ⟨-, rfl, -⟩ := hc
        simp
      · rcases hs : sepSplit (c2 :: c3 :: rest) with - | ⟨p', ps'⟩
        · exact absurd hs (sepSplit_ne_nil _)
        · rw [hs] at h
          simp only [] at h
          injection h with h1 h2
          have hm : '-' ∈ c2 :: c3 :: rest :=
            dash_mem_of_sepSplit (by rw [hs, h2])
          exact List.mem_cons_of_mem c1 hm

/-! ### Claim C4 -/

/-- C4 (amended): validator membership is exact and case-sensitive, but
applied to the trimmed parts.  For a cause that splits into exactly
three parts, validity is membership of the stripped service part,
membership of the stripped category part and non-emptiness of the
stripped root-cause part — so surrounding whitespace on a part is
ignored, not rejected. -/
theorem C4_validator_trims (s : Chars) (offs cats : List Chars) (a b c : Chars)
    (hsplit : sepSplit s = [a, b, c]) :
    is_valid_cause (some s) offs cats =
      (decide (pyStrip a ∈ offs) && decide (pyStrip b ∈ cats) &&
        !(pyStrip c).isEmpty) := by
  have hd : '-' ∈ s := dash_mem_of_sepSplit hsplit
  have hne : pyStrip s ≠ [] := pyStrip_ne_nil_of_mem '-' (by decide) s hd
  unfold is_valid_cause
  simp only []
  rw [if_neg (fun hie => hne (isEmpty_eq_nil hie))]
  rw [hsplit]
  rfl

/-- Counterexample to C4 as stated: the cause " Laptop - Cat - X" splits
into three parts whose service part " Laptop" carries surrounding
whitespace absent from the reference entry "Laptop", yet the validator
accepts it, because the code strips every part after the split. -/
theorem C4_validator_trims_cex :
    sepSplit (chars " Laptop - Cat - X") =
      [chars " Laptop", chars "Cat", chars "X"] ∧
    chars " Laptop" ∉ [chars "Laptop"] ∧
    is_valid_cause (some (chars " Laptop - Cat - X"))
      [chars "Laptop"] [chars "Cat"] = true :=
  ⟨by decide, by decide, by decide⟩

/-- Witness for C4 at a concrete three-part cause. -/
theorem C4_validator_trims_witness :
    is_valid_cause (some (chars "A - B - C")) [chars "A"] [chars "B"] =
      (decide (pyStrip (chars "A") ∈ [chars "A"]) &&
        decide (pyStrip (chars "B") ∈ [chars "B"]) &&
        !(pyStrip (chars "C")).isEmpty) :=
  C4_validator_trims (chars "A - B - C") [chars "A"] [chars "B"]
    (chars "A") (chars "B") (chars "C") (by decide)

/-! ### Claim C3 -/

/-- C3 (amended): missing free-text coercion.  A missing (NaN) free-text
field never fails; it is coerced by `str()` to the literal string "nan",
so processing a ticket equals processing the ticket in which every
free-text field is replaced by its str-coercion. -/
theorem C3_missing_fields (t : Ticket) (rl offs cats : List Chars) :
    process_ticket t rl offs cats =
      process_ticket (Ticket.mk t.service_offering t.existing_cause
        (some (pyStr t.short_description)) (some (pyStr t.description))
        (some (pyStr t.work_notes))) rl offs cats := rfl

/-- Counterexample to C3 as stated: replacing a missing description with
the empty string changes the outcome (the literal "nan" in the blob
matches a catalog phrase "nan", giving confidence 90 instead of the
fallback path), so a missing field is not treated as the empty string. -/
theorem C3_missing_fields_cex :
    process_ticket (Ticket.mk (some (chars "Laptop")) (some []) (some (chars "x"))
        none (some (chars "hello"))) [chars "nan"] [] [chars "Z"] ≠
    process_ticket (Ticket.mk (some (chars "Laptop")) (some []) (some (chars "x"))
        (some []) (some (chars "hello"))) [chars "nan"] [] [chars "Z"] := by decide

/-! ### Claim C1 -/

/-- C1 (amended): validator idempotence of composed causes.  Every
Processed cause has the composed three-part shape; and for a composed
cause whose parts are trim-fixed, contain no separator occurrence and do
not create one at a junction (stated via `sepSplit` returning the
junction text whole), with the service offering a member of the
reference list, re-validation succeeds exactly when the category is
canonical and the root cause is non-empty.  Without those hygiene
conditions the equivalence fails (see the counterexample). -/
theorem C1_validator_idempotence :
    (∀ (t : Ticket) (rl offs cats : List Chars) (cause : Chars)
        (k : Option Nat) (reason : Chars),
        process_ticket t rl offs cats = some (some cause, k, reason) →
        ∃ cat rca, cause = composeCause t.service_offering cat rca) ∧
    (∀ (so : Option Chars) (cat rca : Chars) (offs cats : List Chars),
        pyStr so ∈ offs →
        pyStrip (pyStr so) = pyStr so →
        pyStrip cat = cat →
        pyStrip rca = rca →
        sepSplit (pyStr so ++ [' ', '-']) = [pyStr so ++ [' ', '-']] →
        sepSplit (cat ++ [' ', '-']) = [cat ++ [' ', '-']] →
        sepSplit rca = [rca] →
        is_valid_cause (some (composeCause so cat rca)) offs cats =
          (decide (cat ∈ cats) && !rca.isEmpty)) := by
  constructor
  · intro t rl offs cats cause k reason h
    unfold process_ticket at h
    simp only [] at h
    split_ifs at h with hv hconf
    · simp at h
    · rcases hai : ai_fallback_suggest (mkBlob t) cats with - | ⟨ac, ar⟩
      · rw [hai] at h; simp at h
      · rw [hai] at h
        simp only [Option.some.injEq, Prod.mk.injEq] at h
        exact ⟨ac, ar, h.1.symm⟩
    · simp only [Option.some.injEq, Prod.mk.injEq] at h
      exact ⟨categorize (mkBlob t), (resolveRca (mkBlob t) rl t.work_notes).1, h.1.symm⟩
  · intro so cat rca offs cats hmem tso tcat trca hjs hjc hjr
    have hsplit : sepSplit (composeCause so cat rca) = [pyStr so, cat, rca] := by
      unfold composeCause
      rw [show chars " - " = [' ', '-', ' '] from rfl]
      have e : pyStr so ++ [' ', '-', ' '] ++ cat ++ [' ', '-', ' '] ++ rca =
          pyStr so ++ ' ' :: '-' :: ' ' :: (cat ++ ' ' :: '-' :: ' ' :: rca) := by
        simp [List.append_assoc]
      rw [e, sepSplit_junction _ _ hjs, sepSplit_junction _ _ hjc, hjr]
    have hdash : '-' ∈ composeCause so cat rca := by
      unfold composeCause
      rw [show chars " - " = [' ', '-', ' '] from rfl]
      simp
    unfold is_valid_cause
    simp only []
    rw [if_neg (fun hie =>
      pyStrip_ne_nil_of_mem '-' (by decide) _ hdash (isEmpty_eq_nil hie))]
    rw [hsplit]
    simp only [List.map_cons, List.map_nil]
    rw [tso, tcat, trca]
    simp [hmem]

/-- Counterexample to C1 as stated: with the reference entry "Laptop "
(trailing space) the ticket is processed to a composed cause whose
service field is a member of the reference list and whose category and
root cause satisfy the membership conditions, yet re-validation fails,
because the validator strips the split parts before the membership
test. -/
theorem C1_validator_idempotence_cex :
    process_ticket (Ticket.mk (some (chars "Laptop ")) (some [])
        (some (chars "fixed")) (some []) (some []))
        [] [chars "Laptop "] [chars "Configuration issue"] =
      some (some (chars "Laptop  - Configuration issue - Resolved after configuration check"),
        some 70, chars "AI fallback used") ∧
    chars "Laptop " ∈ [chars "Laptop "] ∧
    chars "Configuration issue" ∈ [chars "Configuration issue"] ∧
    chars "Resolved after configuration check" ≠ [] ∧
    is_valid_cause
      (some (chars "Laptop  - Configuration issue - Resolved after configuration check"))
      [chars "Laptop "] [chars "Configuration issue"] = false :=
  ⟨by decide, by decide, by decide, by decide, by decide⟩

/-- Witness for C1: a Processed outcome has the composed shape, and a
clean composed cause revalidates according to the two membership
conditions. -/
theorem C1_validator_idempotence_witness :
    (∃ cat rca, chars "S - C - Root cause under investigation" =
        composeCause (Ticket.mk (some (chars "S")) none (some []) (some [])
          (some [])).service_offering cat rca) ∧
    is_valid_cause (some (composeCause (some (chars "S")) (chars "B") (chars "C")))
        [chars "S"] [chars "B"] =
      (decide (chars "B" ∈ [chars "B"]) && !(chars "C").isEmpty) :=
  ⟨C1_validator_idempotence.1
      (Ticket.mk (some (chars "S")) none (some []) (some []) (some []))
      [] [] [chars "C"] (chars "S - C - Root cause under investigation")
      (some 70) (chars "AI fallback used") (by decide),
   C1_validator_idempotence.2 (some (chars "S")) (chars "B") (chars "C")
      [chars "S"] [chars "B"] (by decide) (by decide) (by decide) (by decide)
      (by decide) (by decide) (by decide)⟩
